import Mathlib

/-!
Shallow embedding of `src/index.ts` of the `mcp-server-authless` worker:
a Cloudflare Worker front router (`default.fetch`) plus a Durable Object
class (`MyMCP`) that serves an MCP server with two registered tools,
`add` and `calculate`.

Modelling conventions:
* JS strings are Lean `String` (lists of characters); `startsWith` and
  `slice` are modelled character-wise, matching the JS string methods.
* JS numbers are modelled as `ℚ`; every numeric value the claims
  evaluate (integers, halves) is represented exactly in IEEE doubles,
  so `ℚ` arithmetic agrees with the source on all of them.
* Platform pieces that are not part of the repository (the Durable
  Object namespace, the MCP SDK transport adapters and its dispatch
  loop) enter as function parameters, or are modelled from the spec
  where the doc comment says so.
-/

namespace MCP

/-- HTTP response shape produced by the code: a status code and a body.
Adapter responses are modelled with the same shape. -/
structure Response where
  status : Nat
  body : String
  deriving DecidableEq, Repr

/-- Incoming HTTP request, reduced to the two projections the source
reads: `pathname` models `new URL(request.url).pathname`, and `headers`
models `request.headers.get` (returning null, i.e. `none`, for an
absent header). -/
structure HttpRequest where
  pathname : String
  headers : String → Option String

/-- Model of JS `String.prototype.startsWith` (used by the source as
`authHeader.startsWith("Bearer ")` and `url.pathname.startsWith(...)`):
a character-wise prefix test. -/
def jsStartsWith (s pat : String) : Bool :=
  List.isPrefixOf pat.data s.data

/-- Model of JS `s.slice(n)`: drop the first `n` characters. -/
def jsSlice (s : String) (n : Nat) : String :=
  String.mk (s.data.drop n)

/-- Per-request Call Context carrying the extracted bearer credential
(src/index.ts line 125: `const context = { authToken }`). -/
structure Context where
  authToken : Option String
  deriving DecidableEq, Repr

/-- Credential extraction of `MyMCP.fetch` (src/index.ts lines 117-121):
read the Authorization header; if it is present and starts with
"Bearer ", the token is the rest of the header after that 7-character
prefix; otherwise the token is absent.  The function is total, so
extraction cannot fail or throw. -/
def extractAuthToken (authHeader : Option String) : Option String :=
  match authHeader with
  | some h => if jsStartsWith h "Bearer " then some (jsSlice h 7) else none
  | none => none

/-- Call Context constructed by `MyMCP.fetch` (src/index.ts lines
117-125): only the Authorization header is consulted. -/
def MyMCP.callContext (request : HttpRequest) : Context :=
  Context.mk (extractAuthToken (request.headers "Authorization"))

/-- Durable Object `MyMCP.fetch` (src/index.ts lines 113-142).  The MCP
SDK transports `this.server.serveSSE("/sse").fetch` and
`this.server.serve("/mcp").fetch` are external collaborators and enter
as the parameters `serveSSE` and `serve`; `σ` is the opaque
`DurableObjectState` handle passed through to them. -/
def MyMCP.fetch {σ : Type}
    (serveSSE : HttpRequest → σ → Context → Response)
    (serve : HttpRequest → σ → Context → Response)
    (state : σ) (request : HttpRequest) : Response :=
  let context := MyMCP.callContext request
  if request.pathname = "/sse" ∨ request.pathname = "/sse/message" then
    serveSSE request state context
  else if request.pathname = "/mcp" then
    serve request state context
  else
    Response.mk 404 "Not found within Durable Object"

/-- Modelled from the spec: the locate-or-create resolution of the
Instance Locator (`env.MCP_OBJECT.idFromName` / `.get`, an external
collaborator whose code is not in the repository; spec §6:
`resolveByName(name) -> handle`, idempotent, create-if-absent).
The registry records the instances already constructed in this
deployment lifetime; resolving a name returns the existing instance
when one exists and otherwise constructs one.  The returned flag
records whether construction happened on this call. -/
def resolveByName {Inst : Type} (construct : String → Inst)
    (reg : List (String × Inst)) (name : String) :
    Inst × List (String × Inst) × Bool :=
  match reg.lookup name with
  | some inst => (inst, reg, false)
  | none =>
    let inst := construct name
    (inst, (name, inst) :: reg, true)

/-- Worker entry point `default.fetch` (src/index.ts lines 148-170):
prefix test on the pathname; on a hit, resolution of the fixed name
"MySingleMCPInstance" followed by forwarding of the original request to
the resolved instance (`instFetch` is the fetch of the Durable Object stub);
otherwise a local 404.  Returns the response together with the updated
instance registry. -/
def workerFetch {Inst : Type} (construct : String → Inst)
    (instFetch : Inst → HttpRequest → Response)
    (reg : List (String × Inst)) (request : HttpRequest) :
    Response × List (String × Inst) :=
  if jsStartsWith request.pathname "/mcp" || jsStartsWith request.pathname "/sse" then
    let r := resolveByName construct reg "MySingleMCPInstance"
    (instFetch r.1 request, r.2.1)
  else
    (Response.mk 404 "Not found in Worker entry point", reg)

/-- Content item of an MCP Operation Result; both tools only ever
produce a single text item. -/
inductive ContentItem where
  | text (s : String)
  deriving DecidableEq, Repr

/-- Operation Result: the structured payload a tool handler returns
(the content list the source returns). -/
structure OperationResult where
  content : List ContentItem
  deriving DecidableEq, Repr

/-- Model of JS `String(n)` for the numbers this code produces: an
integral value prints with no decimal point (the only case the claims
evaluate); a non-integral rational is rendered by the `toString` of `ℚ`,
standing in for the JS decimal rendering. -/
def numToString (q : ℚ) : String :=
  if q.den = 1 then toString q.num else toString q

/-- Rendering of the optional token in the `console.log` calls
(JS prints `undefined` for an absent value). -/
def logToken : Option String → String
  | some t => t
  | none => "undefined"

/-- Output of one handler invocation: the Operation Result it returns
plus the `console.log` lines it emits. -/
structure HandlerOutput where
  result : OperationResult
  log : List String
  deriving DecidableEq, Repr

/-- Handler of the `add` tool (src/index.ts lines 61-67): logs the
token from the Call Context and returns the text of `a + b`. -/
def addHandler (a b : ℚ) (context : Context) : HandlerOutput :=
  HandlerOutput.mk
    (OperationResult.mk [ContentItem.text (numToString (a + b))])
    ["Auth Token in \x27add\x27 tool: " ++ logToken context.authToken]

/-- Argument of the `operation` parameter of `calculate`
(`z.enum(["add", "subtract", "multiply", "divide"])`, src line 74). -/
inductive CalcOp where
  | add
  | subtract
  | multiply
  | divide
  deriving DecidableEq, Repr

/-- Handler of the `calculate` tool (src/index.ts lines 79-108): logs
the token, switches on the operation, and returns early with a plain
(non-error) text result when dividing by zero. -/
def calculateHandler (operation : CalcOp) (a b : ℚ) (context : Context) :
    HandlerOutput :=
  let log := ["Auth Token in \x27calculate\x27 tool: " ++ logToken context.authToken]
  match operation with
  | CalcOp.add =>
    HandlerOutput.mk (OperationResult.mk [ContentItem.text (numToString (a + b))]) log
  | CalcOp.subtract =>
    HandlerOutput.mk (OperationResult.mk [ContentItem.text (numToString (a - b))]) log
  | CalcOp.multiply =>
    HandlerOutput.mk (OperationResult.mk [ContentItem.text (numToString (a * b))]) log
  | CalcOp.divide =>
    if b = 0 then
      HandlerOutput.mk
        (OperationResult.mk [ContentItem.text "Error: Cannot divide by zero"]) log
    else
      HandlerOutput.mk (OperationResult.mk [ContentItem.text (numToString (a / b))]) log

/-- Raw (unvalidated) argument value as it arrives on the wire, before
schema validation. -/
inductive RawValue where
  | num (q : ℚ)
  | str (s : String)
  | boolean (b : Bool)
  | null
  deriving DecidableEq, Repr

/-- Raw argument object: named fields with raw values. -/
abbrev RawArgs := List (String × RawValue)

/-- Extraction of a required `z.number()` field from the raw
arguments: present and numeric, else validation fails. -/
def getNum (raw : RawArgs) (key : String) : Option ℚ :=
  match raw.lookup key with
  | some (RawValue.num q) => some q
  | _ => none

/-- Parsing of the `operation` enum value (src line 74). -/
def parseOperation (s : String) : Option CalcOp :=
  if s = "add" then some CalcOp.add
  else if s = "subtract" then some CalcOp.subtract
  else if s = "multiply" then some CalcOp.multiply
  else if s = "divide" then some CalcOp.divide
  else none

/-- Extraction of the required `z.enum(...)` field from the raw
arguments. -/
def getOperation (raw : RawArgs) (key : String) : Option CalcOp :=
  match raw.lookup key with
  | some (RawValue.str s) => parseOperation s
  | _ => none

/-- Validation against the `add` schema (src line 59): both `a` and `b`
must be numbers. -/
def validateAdd (raw : RawArgs) : Option (ℚ × ℚ) :=
  match getNum raw "a", getNum raw "b" with
  | some a, some b => some (a, b)
  | _, _ => none

/-- Validation against the `calculate` schema (src lines 73-77):
`operation` must be one of the four enum values, `a` and `b` numbers. -/
def validateCalculate (raw : RawArgs) : Option (CalcOp × ℚ × ℚ) :=
  match getOperation raw "operation", getNum raw "a", getNum raw "b" with
  | some op, some a, some b => some (op, a, b)
  | _, _, _ => none

/-- Condition with which a tool call resolves. -/
inductive DispatchResult where
  | unknownOperation
  | validationError
  | ok (r : OperationResult)
  deriving DecidableEq, Repr

/-- Trace of one dispatched tool call: its outcome, whether the handler
body ran, and the log lines emitted. -/
structure DispatchTrace where
  result : DispatchResult
  handlerInvoked : Bool
  log : List String
  deriving DecidableEq, Repr

/-- Modelled from the spec: the dispatch algorithm of the Transport Adapter
(spec §4.3; the MCP SDK code performing it is not in the repository),
consuming the registry built by `MyMCP.init` (src lines 55-110), whose
registered names are exactly `add` and `calculate`: look the requested
name up; if absent fail with an unknown-operation condition; else
validate the raw arguments against the schema of the tool, failing with a
validation condition before the handler runs; else invoke the handler
with the validated arguments and the Call Context passed through
untouched.  The handlers are parameters here so that independence of
the outcome from the handler bodies (handler never invoked) is
expressible. -/
def dispatchWith
    (addH : ℚ → ℚ → Context → HandlerOutput)
    (calcH : CalcOp → ℚ → ℚ → Context → HandlerOutput)
    (toolName : String) (raw : RawArgs) (context : Context) : DispatchTrace :=
  if toolName = "add" then
    match validateAdd raw with
    | some (a, b) =>
      let o := addH a b context
      DispatchTrace.mk (DispatchResult.ok o.result) true o.log
    | none => DispatchTrace.mk DispatchResult.validationError false []
  else if toolName = "calculate" then
    match validateCalculate raw with
    | some (op, a, b) =>
      let o := calcH op a b context
      DispatchTrace.mk (DispatchResult.ok o.result) true o.log
    | none => DispatchTrace.mk DispatchResult.validationError false []
  else
    DispatchTrace.mk DispatchResult.unknownOperation false []

/-- Dispatch with the two handlers registered by `MyMCP.init`. -/
def dispatch (toolName : String) (raw : RawArgs) (context : Context) :
    DispatchTrace :=
  dispatchWith addHandler calculateHandler toolName raw context

/-- Dispatch with the surviving per-deployment state threaded through a
call.  `Storage` stands for the durable-state handle and the instance
fields of `MyMCP`; as in the source, neither tool handler reads or
writes it, so a call returns it unchanged alongside the trace. -/
def dispatchS {Storage : Type} (s : Storage)
    (toolName : String) (raw : RawArgs) (context : Context) :
    DispatchTrace × Storage :=
  (dispatch toolName raw context, s)

/-- Path set accepted by the Front Router: the prefix test of
`workerFetch` (src/index.ts line 155). -/
def routerAccepts (p : String) : Bool :=
  jsStartsWith p "/mcp" || jsStartsWith p "/sse"

/-- Path set the Dispatch Instance delegates to a transport: the exact
comparisons of `MyMCP.fetch` (src/index.ts lines 128 and 135). -/
def instanceAccepts (p : String) : Bool :=
  p = "/sse" || p = "/sse/message" || p = "/mcp"

theorem numToString_intCast (n : ℤ) : numToString ((n : ℤ) : ℚ) = toString n := by
  simp [numToString, Rat.den_intCast, Rat.num_intCast]

theorem jsStartsWith_bearer (t : String) :
    jsStartsWith ("Bearer " ++ t) "Bearer " = true := by
  simp [jsStartsWith, List.isPrefixOf]

theorem jsSlice_bearer (t : String) : jsSlice ("Bearer " ++ t) 7 = t := by
  have h : ("Bearer ".data).length = 7 := rfl
  simp only [jsSlice, String.data_append]
  rw [← h, List.drop_left]

theorem extractAuthToken_bearer (t : String) :
    extractAuthToken (some ("Bearer " ++ t)) = some t := by
  simp [extractAuthToken, jsStartsWith_bearer, jsSlice_bearer]

/-- C1: for every request handled by the Dispatch Instance fetch, an
Authorization header of the exact form "Bearer " followed by a token
makes the credential of the Call Context equal that token; a missing
header, or one not starting with "Bearer ", leaves the credential
absent; and the credential depends on no header other than
Authorization (two requests agreeing on that header get equal Call
Contexts).  Extraction is a total Lean function, so it cannot fail or
throw. -/
theorem c1_credential_extraction :
    (∀ (request : HttpRequest) (t : String),
      request.headers "Authorization" = some ("Bearer " ++ t) →
      (MyMCP.callContext request).authToken = some t) ∧
    (∀ (request : HttpRequest) (h : String),
      request.headers "Authorization" = some h →
      jsStartsWith h "Bearer " = false →
      (MyMCP.callContext request).authToken = none) ∧
    (∀ (request : HttpRequest),
      request.headers "Authorization" = none →
      (MyMCP.callContext request).authToken = none) ∧
    (∀ (r₁ r₂ : HttpRequest),
      r₁.headers "Authorization" = r₂.headers "Authorization" →
      MyMCP.callContext r₁ = MyMCP.callContext r₂) := by
  refine ⟨?_, ?_, ?_, ?_⟩
  · intro request t hreq
    simp [MyMCP.callContext, hreq, extractAuthToken_bearer]
  · intro request h hreq hpre
    simp [MyMCP.callContext, hreq, extractAuthToken, hpre]
  · intro request hreq
    simp [MyMCP.callContext, hreq, extractAuthToken]
  · intro r₁ r₂ hsame
    simp [MyMCP.callContext, hsame]

/-- Witness for C1 at a concrete request carrying
"Authorization: Bearer tok123". -/
theorem c1_credential_extraction_witness :
    (HttpRequest.mk "/mcp"
        (fun k => if k = "Authorization" then some "Bearer tok123" else none)).headers
        "Authorization" = some ("Bearer " ++ "tok123") ∧
    (MyMCP.callContext (HttpRequest.mk "/mcp"
        (fun k => if k = "Authorization" then some "Bearer tok123" else none))).authToken =
      some "tok123" :=
  ⟨by decide, c1_credential_extraction.1 _ "tok123" (by decide)⟩

/-- C2: for requests whose path passes the router prefix test, the
router resolves the fixed name "MySingleMCPInstance", forwards the
original request to the resolved instance and returns its response
verbatim; resolving again after the call yields the same instance with
no construction and an unchanged registry, and a second routed request
is served by the same instance, so construction happens at most once
per identifier per deployment lifetime. -/
theorem c2_singleton_routing {Inst : Type} (construct : String → Inst)
    (instFetch : Inst → HttpRequest → Response)
    (reg : List (String × Inst)) (r₁ r₂ : HttpRequest)
    (h₁ : (jsStartsWith r₁.pathname "/mcp" || jsStartsWith r₁.pathname "/sse") = true)
    (h₂ : (jsStartsWith r₂.pathname "/mcp" || jsStartsWith r₂.pathname "/sse") = true) :
    (workerFetch construct instFetch reg r₁).1 =
      instFetch (resolveByName construct reg "MySingleMCPInstance").1 r₁ ∧
    (workerFetch construct instFetch reg r₁).2 =
      (resolveByName construct reg "MySingleMCPInstance").2.1 ∧
    resolveByName construct (workerFetch construct instFetch reg r₁).2 "MySingleMCPInstance" =
      ((resolveByName construct reg "MySingleMCPInstance").1,
       (workerFetch construct instFetch reg r₁).2, false) ∧
    (workerFetch construct instFetch (workerFetch construct instFetch reg r₁).2 r₂).1 =
      instFetch (resolveByName construct reg "MySingleMCPInstance").1 r₂ ∧
    (workerFetch construct instFetch (workerFetch construct instFetch reg r₁).2 r₂).2 =
      (workerFetch construct instFetch reg r₁).2 := by
  have hreg : (workerFetch construct instFetch reg r₁).2 =
      (resolveByName construct reg "MySingleMCPInstance").2.1 := by
    simp [workerFetch, h₁]
  have hres : resolveByName construct
      (resolveByName construct reg "MySingleMCPInstance").2.1 "MySingleMCPInstance" =
      ((resolveByName construct reg "MySingleMCPInstance").1,
       (resolveByName construct reg "MySingleMCPInstance").2.1, false) := by
    cases hl : (reg.lookup "MySingleMCPInstance") with
    | some inst => simp [resolveByName, hl]
    | none => simp [resolveByName, hl]
  refine ⟨by simp [workerFetch, h₁], hreg, ?_, ?_, ?_⟩
  · rw [hreg, hres]
  · rw [hreg]
    simp only [workerFetch, h₂, if_true, hres]
  · rw [hreg]
    simp only [workerFetch, h₂, if_true, hres]

/-- Witness for C2: two concrete requests under "/mcp" and "/sse",
starting from the empty registry; the forwarded response is the
instance response and the resolution after the first call reports no
construction. -/
theorem c2_singleton_routing_witness :
    ((jsStartsWith "/mcp" "/mcp" || jsStartsWith "/mcp" "/sse") = true) ∧
    ((jsStartsWith "/sse" "/mcp" || jsStartsWith "/sse" "/sse") = true) ∧
    (workerFetch (fun _ => 0) (fun _ r => Response.mk 200 r.pathname)
        ([] : List (String × Nat)) (HttpRequest.mk "/mcp" (fun _ => none))).1 =
      Response.mk 200 "/mcp" ∧
    resolveByName (fun _ => 0)
        (workerFetch (fun _ => 0) (fun _ r => Response.mk 200 r.pathname)
          ([] : List (String × Nat)) (HttpRequest.mk "/mcp" (fun _ => none))).2
        "MySingleMCPInstance" =
      (0, (workerFetch (fun _ => 0) (fun _ r => Response.mk 200 r.pathname)
          ([] : List (String × Nat)) (HttpRequest.mk "/mcp" (fun _ => none))).2, false) :=
  ⟨by decide, by decide,
   (c2_singleton_routing (fun _ => 0) (fun _ r => Response.mk 200 r.pathname) []
      (HttpRequest.mk "/mcp" (fun _ => none)) (HttpRequest.mk "/sse" (fun _ => none))
      (by decide) (by decide)).1,
   (c2_singleton_routing (fun _ => 0) (fun _ r => Response.mk 200 r.pathname) []
      (HttpRequest.mk "/mcp" (fun _ => none)) (HttpRequest.mk "/sse" (fun _ => none))
      (by decide) (by decide)).2.2.1⟩

/-- C3 counterexample: at the concrete path "/other" the router answers
404 with body "Not found in Worker entry point", not the body
"Not found" the claim states. -/
theorem c3_router_rejects_counterexample :
    (workerFetch (fun _ => ()) (fun _ _ => Response.mk 200 "") []
      (HttpRequest.mk "/other" (fun _ => none))).1.body ≠ "Not found" ∧
    (workerFetch (fun _ => ()) (fun _ _ => Response.mk 200 "") []
      (HttpRequest.mk "/other" (fun _ => none))).1 =
      Response.mk 404 "Not found in Worker entry point" := by
  constructor
  · decide
  · decide

/-- C3 amended: for every request whose path starts with neither "/mcp"
nor "/sse", the router responds with status 404 and body
"Not found in Worker entry point", leaves the instance registry
unchanged (never constructs), and produces its response without
consulting the instance fetch (the statement holds for every
`construct` and every `instFetch`). -/
theorem c3_router_rejects_amended {Inst : Type} (construct : String → Inst)
    (instFetch : Inst → HttpRequest → Response)
    (reg : List (String × Inst)) (request : HttpRequest)
    (h : (jsStartsWith request.pathname "/mcp" ||
          jsStartsWith request.pathname "/sse") = false) :
    workerFetch construct instFetch reg request =
      (Response.mk 404 "Not found in Worker entry point", reg) := by
  simp [workerFetch, h]

/-- Witness for the amended C3 at the concrete path "/other". -/
theorem c3_router_rejects_amended_witness :
    ((jsStartsWith "/other" "/mcp" || jsStartsWith "/other" "/sse") = false) ∧
    workerFetch (fun _ => ()) (fun _ _ => Response.mk 200 "") []
        (HttpRequest.mk "/other" (fun _ => none)) =
      (Response.mk 404 "Not found in Worker entry point", []) :=
  ⟨by decide,
   c3_router_rejects_amended (fun _ => ()) (fun _ _ => Response.mk 200 "") []
     (HttpRequest.mk "/other" (fun _ => none)) (by decide)⟩

/-- C4: inside the Dispatch Instance fetch, a path equal to "/sse" or
"/sse/message" is delegated to the streaming adapter, a path equal to
"/mcp" to the single-response adapter — each receives the request, the
durable-state handle and the Call Context, and its response is returned
unmodified — and every other path receives a 404 response. -/
theorem c4_instance_transport_selection {σ : Type}
    (serveSSE serve : HttpRequest → σ → Context → Response)
    (state : σ) (request : HttpRequest) :
    (request.pathname = "/sse" ∨ request.pathname = "/sse/message" →
      MyMCP.fetch serveSSE serve state request =
        serveSSE request state (MyMCP.callContext request)) ∧
    (request.pathname = "/mcp" →
      MyMCP.fetch serveSSE serve state request =
        serve request state (MyMCP.callContext request)) ∧
    (request.pathname ≠ "/sse" → request.pathname ≠ "/sse/message" →
      request.pathname ≠ "/mcp" →
      MyMCP.fetch serveSSE serve state request =
        Response.mk 404 "Not found within Durable Object") := by
  refine ⟨?_, ?_, ?_⟩
  · intro h
    simp [MyMCP.fetch, h]
  · intro h
    simp [MyMCP.fetch, h]
  · intro h₁ h₂ h₃
    simp [MyMCP.fetch, h₁, h₂, h₃]

/-- Witness for C4 at the three concrete paths "/sse", "/mcp" and
"/nope". -/
theorem c4_instance_transport_selection_witness :
    MyMCP.fetch (fun _ _ _ => Response.mk 200 "sse") (fun _ _ _ => Response.mk 200 "mcp")
        () (HttpRequest.mk "/sse" (fun _ => none)) = Response.mk 200 "sse" ∧
    MyMCP.fetch (fun _ _ _ => Response.mk 200 "sse") (fun _ _ _ => Response.mk 200 "mcp")
        () (HttpRequest.mk "/mcp" (fun _ => none)) = Response.mk 200 "mcp" ∧
    MyMCP.fetch (fun _ _ _ => Response.mk 200 "sse") (fun _ _ _ => Response.mk 200 "mcp")
        () (HttpRequest.mk "/nope" (fun _ => none)) =
      Response.mk 404 "Not found within Durable Object" :=
  ⟨(c4_instance_transport_selection _ _ () (HttpRequest.mk "/sse" (fun _ => none))).1
     (Or.inl rfl),
   (c4_instance_transport_selection _ _ () (HttpRequest.mk "/mcp" (fun _ => none))).2.1 rfl,
   (c4_instance_transport_selection _ _ () (HttpRequest.mk "/nope" (fun _ => none))).2.2
     (by decide) (by decide) (by decide)⟩

/-- C5: the calculate handler always returns a single text Operation
Result; dividing by zero yields the normal (non-error) result
"Error: Cannot divide by zero" instead of failing, every other case
yields the text of the arithmetic result, and the concrete examples
divide 10 2 and multiply 4 0.5 yield "5" and "2". -/
theorem c5_calculate_divide_by_zero (a b : ℚ) (context : Context) :
    ((calculateHandler CalcOp.divide a 0 context).result =
      OperationResult.mk [ContentItem.text "Error: Cannot divide by zero"]) ∧
    (b ≠ 0 → (calculateHandler CalcOp.divide a b context).result =
      OperationResult.mk [ContentItem.text (numToString (a / b))]) ∧
    ((calculateHandler CalcOp.add a b context).result =
      OperationResult.mk [ContentItem.text (numToString (a + b))]) ∧
    ((calculateHandler CalcOp.subtract a b context).result =
      OperationResult.mk [ContentItem.text (numToString (a - b))]) ∧
    ((calculateHandler CalcOp.multiply a b context).result =
      OperationResult.mk [ContentItem.text (numToString (a * b))]) ∧
    ((calculateHandler CalcOp.divide 10 2 context).result =
      OperationResult.mk [ContentItem.text "5"]) ∧
    ((calculateHandler CalcOp.multiply 4 0.5 context).result =
      OperationResult.mk [ContentItem.text "2"]) := by
  have h52 : (10 : ℚ) / 2 = ((5 : ℤ) : ℚ) := by norm_num
  have h2 : (4 : ℚ) * 0.5 = ((2 : ℤ) : ℚ) := by norm_num
  refine ⟨by simp [calculateHandler], ?_, by simp [calculateHandler],
    by simp [calculateHandler], by simp [calculateHandler], ?_, ?_⟩
  · intro hb
    simp [calculateHandler, hb]
  · have h20 : (2 : ℚ) ≠ 0 := by norm_num
    simp [calculateHandler, h20, h52, numToString_intCast]
    rfl
  · simp [calculateHandler, h2, numToString_intCast]
    rfl

/-- Witness for C5 discharging the nonzero-divisor hypothesis at the
concrete input divide 10 2. -/
theorem c5_calculate_divide_by_zero_witness :
    (2 : ℚ) ≠ 0 ∧
    (calculateHandler CalcOp.divide 10 2 (Context.mk none)).result =
      OperationResult.mk [ContentItem.text (numToString ((10 : ℚ) / 2))] :=
  ⟨by norm_num,
   (c5_calculate_divide_by_zero 10 2 (Context.mk none)).2.1 (by norm_num)⟩

/-- C6: the add handler returns, for every pair of numeric arguments, a
single text Operation Result carrying the text of a + b, with no error
path; add 2 3 yields "5" and add (-1.5) 1.5 yields "0". -/
theorem c6_add_handler (a b : ℚ) (context : Context) :
    ((addHandler a b context).result =
      OperationResult.mk [ContentItem.text (numToString (a + b))]) ∧
    ((addHandler 2 3 context).result = OperationResult.mk [ContentItem.text "5"]) ∧
    ((addHandler (-1.5) 1.5 context).result =
      OperationResult.mk [ContentItem.text "0"]) := by
  have h5 : (2 : ℚ) + 3 = ((5 : ℤ) : ℚ) := by norm_num
  have h0 : (-1.5 : ℚ) + 1.5 = ((0 : ℤ) : ℚ) := by norm_num
  refine ⟨rfl, ?_, ?_⟩
  · simp [addHandler, h5, numToString_intCast]
    rfl
  · simp [addHandler, h0, numToString_intCast]
    rfl

/-- C7: dispatch first fails unregistered tool names with an
unknown-operation condition; for a registered tool it next validates
the raw arguments, failing with a validation condition without invoking
the handler (the outcome is the same for arbitrary replacement
handlers, and the invocation flag is false); and only for validated
arguments does it invoke the handler, with the Call Context passed
through untouched, its result becoming the output of the call. -/
theorem c7_dispatch_order (toolName : String) (raw : RawArgs) (context : Context) :
    (toolName ≠ "add" → toolName ≠ "calculate" →
      dispatch toolName raw context =
        DispatchTrace.mk DispatchResult.unknownOperation false []) ∧
    (validateAdd raw = none →
      dispatch "add" raw context =
        DispatchTrace.mk DispatchResult.validationError false [] ∧
      ∀ (addH : ℚ → ℚ → Context → HandlerOutput)
        (calcH : CalcOp → ℚ → ℚ → Context → HandlerOutput),
        dispatchWith addH calcH "add" raw context = dispatch "add" raw context) ∧
    (∀ a b, validateAdd raw = some (a, b) →
      dispatch "add" raw context =
        DispatchTrace.mk (DispatchResult.ok (addHandler a b context).result) true
          (addHandler a b context).log) ∧
    (validateCalculate raw = none →
      dispatch "calculate" raw context =
        DispatchTrace.mk DispatchResult.validationError false [] ∧
      ∀ (addH : ℚ → ℚ → Context → HandlerOutput)
        (calcH : CalcOp → ℚ → ℚ → Context → HandlerOutput),
        dispatchWith addH calcH "calculate" raw context = dispatch "calculate" raw context) ∧
    (∀ op a b, validateCalculate raw = some (op, a, b) →
      dispatch "calculate" raw context =
        DispatchTrace.mk (DispatchResult.ok (calculateHandler op a b context).result) true
          (calculateHandler op a b context).log) := by
  refine ⟨?_, ?_, ?_, ?_, ?_⟩
  · intro hn₁ hn₂
    simp [dispatch, dispatchWith, hn₁, hn₂]
  · intro hv
    exact ⟨by simp [dispatch, dispatchWith, hv], fun addH calcH => by
      simp [dispatch, dispatchWith, hv]⟩
  · intro a b hv
    simp [dispatch, dispatchWith, hv]
  · intro hv
    exact ⟨by simp [dispatch, dispatchWith, hv], fun addH calcH => by
      simp [dispatch, dispatchWith, hv]⟩
  · intro op a b hv
    simp [dispatch, dispatchWith, hv]

/-- Witness for C7: the unregistered name "nope" fails with
unknown-operation; a call to add with a non-numeric argument fails with
a validation condition and the invocation flag stays false. -/
theorem c7_dispatch_order_witness :
    ("nope" ≠ "add" ∧ "nope" ≠ "calculate" ∧
      dispatch "nope" [] (Context.mk none) =
        DispatchTrace.mk DispatchResult.unknownOperation false []) ∧
    (validateAdd [("a", RawValue.str "x"), ("b", RawValue.num 1)] = none ∧
      dispatch "add" [("a", RawValue.str "x"), ("b", RawValue.num 1)] (Context.mk none) =
        DispatchTrace.mk DispatchResult.validationError false []) :=
  ⟨⟨by decide, by decide,
    (c7_dispatch_order "nope" [] (Context.mk none)).1 (by decide) (by decide)⟩,
   ⟨by decide,
    ((c7_dispatch_order "add" [("a", RawValue.str "x"), ("b", RawValue.num 1)]
       (Context.mk none)).2.1 (by decide)).1⟩⟩

/-- C8: invoking a tool twice with identical validated arguments and
identical Call Context yields identical Operation Results, and the
per-deployment state threaded through the calls is returned unchanged
by both — the handlers read and write no state surviving a call. -/
theorem c8_repeat_invocation_idempotent {Storage : Type} (s : Storage)
    (toolName : String) (raw : RawArgs) (context : Context) :
    (dispatchS (dispatchS s toolName raw context).2 toolName raw context).1 =
      (dispatchS s toolName raw context).1 ∧
    (dispatchS s toolName raw context).2 = s ∧
    (dispatchS (dispatchS s toolName raw context).2 toolName raw context).2 = s :=
  ⟨rfl, rfl, rfl⟩

/-- C9: the router accepts exactly the string-prefix set of "/mcp" and
"/sse" and forwards every accepted request to the singleton instance;
any forwarded path other than exactly "/mcp", "/sse" or "/sse/message"
then draws a 404 from the instance; every instance path is also
router-accepted, while "/mcpextra" and "/sseX" are router-accepted but
not instance paths, so the accepted set of the router is strictly
larger than that of the instance. -/
theorem c9_prefix_vs_exact_paths :
    (∀ {Inst : Type} (construct : String → Inst)
      (instFetch : Inst → HttpRequest → Response)
      (reg : List (String × Inst)) (request : HttpRequest),
      routerAccepts request.pathname = true →
      (workerFetch construct instFetch reg request).1 =
        instFetch (resolveByName construct reg "MySingleMCPInstance").1 request) ∧
    (∀ {σ : Type} (serveSSE serve : HttpRequest → σ → Context → Response)
      (state : σ) (request : HttpRequest),
      instanceAccepts request.pathname = false →
      MyMCP.fetch serveSSE serve state request =
        Response.mk 404 "Not found within Durable Object") ∧
    (∀ p, instanceAccepts p = true → routerAccepts p = true) ∧
    routerAccepts "/mcpextra" = true ∧ instanceAccepts "/mcpextra" = false ∧
    routerAccepts "/sseX" = true ∧ instanceAccepts "/sseX" = false := by
  refine ⟨?_, ?_, ?_, by decide, by decide, by decide, by decide⟩
  · intro Inst construct instFetch reg request h
    simp only [routerAccepts] at h
    simp [workerFetch, h]
  · intro σ serveSSE serve state request h
    simp only [instanceAccepts, Bool.or_eq_false_iff, decide_eq_false_iff_not] at h
    simp [MyMCP.fetch, h.1.1, h.1.2, h.2]
  · intro p h
    simp only [instanceAccepts, Bool.or_eq_true, decide_eq_true_eq] at h
    rcases h with (h | h) | h <;> subst h <;> decide

/-- Witness for C9 at the concrete path "/mcpextra": router-accepted
yet answered 404 by the Dispatch Instance. -/
theorem c9_prefix_vs_exact_paths_witness :
    routerAccepts "/mcpextra" = true ∧
    instanceAccepts "/mcpextra" = false ∧
    MyMCP.fetch (fun _ _ _ => Response.mk 200 "sse") (fun _ _ _ => Response.mk 200 "mcp")
        () (HttpRequest.mk "/mcpextra" (fun _ => none)) =
      Response.mk 404 "Not found within Durable Object" ∧
    (workerFetch (fun _ => 0) (fun _ r => Response.mk 200 r.pathname)
        ([] : List (String × Nat)) (HttpRequest.mk "/mcpextra" (fun _ => none))).1 =
      Response.mk 200 "/mcpextra" :=
  ⟨c9_prefix_vs_exact_paths.2.2.2.1,
   c9_prefix_vs_exact_paths.2.2.2.2.1,
   c9_prefix_vs_exact_paths.2.1 (fun _ _ _ => Response.mk 200 "sse")
     (fun _ _ _ => Response.mk 200 "mcp") ()
     (HttpRequest.mk "/mcpextra" (fun _ => none)) (by decide),
   c9_prefix_vs_exact_paths.1 (fun _ => 0) (fun _ r => Response.mk 200 r.pathname)
     ([] : List (String × Nat)) (HttpRequest.mk "/mcpextra" (fun _ => none)) (by decide)⟩

/-- C10: for both tools the Operation Result is a function of the
validated arguments alone — two calls with identical arguments but
different (or absent) bearer credentials in the Call Context yield
identical results, with only the log lines depending on the
credential. -/
theorem c10_credential_noninterference (a b : ℚ) (ctx₁ ctx₂ : Context) :
    ((addHandler a b ctx₁).result = (addHandler a b ctx₂).result) ∧
    (∀ op, (calculateHandler op a b ctx₁).result = (calculateHandler op a b ctx₂).result) ∧
    (∀ toolName raw,
      (dispatch toolName raw ctx₁).result = (dispatch toolName raw ctx₂).result) := by
  have hadd : ∀ (x y : ℚ), (addHandler x y ctx₁).result = (addHandler x y ctx₂).result :=
    fun _ _ => rfl
  have hcalc : ∀ (op : CalcOp) (x y : ℚ),
      (calculateHandler op x y ctx₁).result = (calculateHandler op x y ctx₂).result := by
    intro op x y
    cases op with
    | add => rfl
    | subtract => rfl
    | multiply => rfl
    | divide => by_cases hb : y = 0 <;> simp [calculateHandler, hb]
  refine ⟨hadd a b, fun op => hcalc op a b, ?_⟩
  intro toolName raw
  by_cases h₁ : toolName = "add"
  · cases hv : validateAdd raw with
    | some p => simp [dispatch, dispatchWith, h₁, hv, hadd]
    | none => simp [dispatch, dispatchWith, h₁, hv]
  · by_cases h₂ : toolName = "calculate"
    · cases hv : validateCalculate raw with
      | some p => simp [dispatch, dispatchWith, h₁, h₂, hv, hcalc]
      | none => simp [dispatch, dispatchWith, h₁, h₂, hv]
    · simp [dispatch, dispatchWith, h₁, h₂]

end MCP
